import Mathlib

/-!
Verification development for the gen-ai repository (three Streamlit demo
scripts).  The Python sources are shallowly embedded below:

* `sports-qna-roberta-base-squad2.py` — dataset records, the
  `get_unique_docs` deduplication loop, `load_documents`, the document
  store and pipeline construction, `search`, and the query handler with
  its exception guard.
* `text-summarization-qna-roberta-base-squad2.py` — `check_resources`,
  the startup gate, and the Summarize / Get Answer button handlers.
* `text_summarizer_fb_bart/text_summarizer_fb_bart.py` — the input
  handler with its exception guard.

Mutable Python sets are threaded explicitly (membership is all that is
used, so a `List String` carries the set); exceptions become
`Except String`; Streamlit UI calls become explicit effect values.
-/

namespace GenAI

/-- A record of the QASports dataset, as consumed by `get_unique_docs`:
the Python code reads the keys `context`, `context_id`, `context_title`
and `url`, with `context` possibly `None`. -/
structure Record where
  context : Option String
  context_id : String
  context_title : String
  url : String
deriving DecidableEq

/-- The metadata dictionary attached to a haystack `Document` by
`get_unique_docs`. -/
structure DocMeta where
  title : String
  context_id : String
  url : String
  source : String
deriving DecidableEq

/-- A haystack `Document` as constructed by `get_unique_docs`: a content
string plus the metadata dictionary. -/
structure Document where
  content : String
  meta : DocMeta
deriving DecidableEq

/-- The `Document(...)` construction inside the loop of
`get_unique_docs`, for a record `r` whose `context` is `some c`. -/
def mkDocument (r : Record) (c : String) : Document :=
  { content := c
    meta :=
      { title := r.context_title
        context_id := r.context_id
        url := r.url
        source := "QASports" } }

/-- Embedding of `get_unique_docs(dataset, unique_docs)`: iterate over
the dataset; whenever a record has a non-`None` context and a
`context_id` not yet in `unique_docs`, add the id to the set and append
a `Document`.  The mutated set is returned as the second component. -/
def get_unique_docs : List Record → List String → List Document × List String
  | [], unique_docs => ([], unique_docs)
  | doc :: rest, unique_docs =>
    match doc.context with
    | none => get_unique_docs rest unique_docs
    | some c =>
      if doc.context_id ∈ unique_docs then
        get_unique_docs rest unique_docs
      else
        let r := get_unique_docs rest (doc.context_id :: unique_docs)
        (mkDocument doc c :: r.1, r.2)

/-- Embedding of `load_documents()`: one shared, initially empty
`unique_docs` set is passed through the three dataset splits, and the
three document lists are concatenated. -/
def load_documents (validation train test : List Record) : List Document :=
  let unique_docs : List String := []
  let docs_validation := get_unique_docs validation unique_docs
  let docs_train := get_unique_docs train docs_validation.2
  let docs_test := get_unique_docs test docs_train.2
  docs_validation.1 ++ docs_train.1 ++ docs_test.1

theorem gud_nil (s : List String) : get_unique_docs [] s = ([], s) := rfl

theorem gud_cons_none (d : Record) (ds : List Record) (s : List String)
    (h : d.context = none) :
    get_unique_docs (d :: ds) s = get_unique_docs ds s := by
  simp [get_unique_docs, h]

theorem gud_cons_mem (d : Record) (ds : List Record) (s : List String) (c : String)
    (h : d.context = some c) (hm : d.context_id ∈ s) :
    get_unique_docs (d :: ds) s = get_unique_docs ds s := by
  simp [get_unique_docs, h, hm]

theorem gud_cons_new (d : Record) (ds : List Record) (s : List String) (c : String)
    (h : d.context = some c) (hm : d.context_id ∉ s) :
    get_unique_docs (d :: ds) s =
      (mkDocument d c :: (get_unique_docs ds (d.context_id :: s)).1,
       (get_unique_docs ds (d.context_id :: s)).2) := by
  simp [get_unique_docs, h, hm]

/-- Every id already in the set stays in the returned set. -/
theorem mem_gud_snd_of_mem (ds : List Record) (s : List String) (x : String)
    (hx : x ∈ s) : x ∈ (get_unique_docs ds s).2 := by
  induction ds generalizing s with
  | nil => simpa [gud_nil] using hx
  | cons d ds ih =>
    cases h : d.context with
    | none => rw [gud_cons_none d ds s h]; exact ih s hx
    | some c =>
      by_cases hm : d.context_id ∈ s
      · rw [gud_cons_mem d ds s c h hm]; exact ih s hx
      · rw [gud_cons_new d ds s c h hm]
        exact ih _ (List.mem_cons_of_mem _ hx)

/-- Every emitted document's id is in the returned set. -/
theorem gud_fst_id_mem_snd (ds : List Record) (s : List String) (d : Document)
    (hd : d ∈ (get_unique_docs ds s).1) :
    d.meta.context_id ∈ (get_unique_docs ds s).2 := by
  induction ds generalizing s with
  | nil => simp [gud_nil] at hd
  | cons r ds ih =>
    cases h : r.context with
    | none => rw [gud_cons_none r ds s h] at hd ⊢; exact ih s hd
    | some c =>
      by_cases hm : r.context_id ∈ s
      · rw [gud_cons_mem r ds s c h hm] at hd ⊢; exact ih s hd
      · rw [gud_cons_new r ds s c h hm] at hd ⊢
        rcases List.mem_cons.mp hd with heq | hmem
        · subst heq
          exact mem_gud_snd_of_mem ds _ _ (List.mem_cons_self _ _)
        · exact ih _ hmem

/-- No emitted document's id was in the starting set. -/
theorem gud_fst_id_not_mem (ds : List Record) (s : List String) (d : Document)
    (hd : d ∈ (get_unique_docs ds s).1) : d.meta.context_id ∉ s := by
  induction ds generalizing s with
  | nil => simp [gud_nil] at hd
  | cons r ds ih =>
    cases h : r.context with
    | none => rw [gud_cons_none r ds s h] at hd; exact ih s hd
    | some c =>
      by_cases hm : r.context_id ∈ s
      · rw [gud_cons_mem r ds s c h hm] at hd; exact ih s hd
      · rw [gud_cons_new r ds s c h hm] at hd
        rcases List.mem_cons.mp hd with heq | hmem
        · subst heq; exact hm
        · intro hin
          exact ih _ hmem (List.mem_cons_of_mem _ hin)

/-- The emitted documents of one `get_unique_docs` call have pairwise
distinct ids. -/
theorem gud_ids_nodup (ds : List Record) (s : List String) :
    ((get_unique_docs ds s).1.map fun d => d.meta.context_id).Nodup := by
  induction ds generalizing s with
  | nil => simp [gud_nil]
  | cons r ds ih =>
    cases h : r.context with
    | none => rw [gud_cons_none r ds s h]; exact ih s
    | some c =>
      by_cases hm : r.context_id ∈ s
      · rw [gud_cons_mem r ds s c h hm]; exact ih s
      · rw [gud_cons_new r ds s c h hm]
        simp only [List.map_cons, List.nodup_cons]
        refine ⟨?_, ih _⟩
        intro hmem
        rcases List.mem_map.mp hmem with ⟨d, hd, hid⟩
        have := gud_fst_id_not_mem ds _ d hd
        rw [hid] at this
        exact this (List.mem_cons_self _ _)

/-- One step of the deduplication described by the specification: a
record with a non-`None` context whose `context_id` is not in the
current set yields exactly one `Document` (appended, keeping input
order) and its id is added to the set; every other record yields
nothing. -/
def spec_step (acc : List Document × List String) (r : Record) :
    List Document × List String :=
  match r.context with
  | none => acc
  | some c =>
    if r.context_id ∈ acc.2 then acc
    else (acc.1 ++ [mkDocument r c], r.context_id :: acc.2)

/-- The specification's description of `get_unique_docs`, as a left fold
of `spec_step` over the dataset starting from no output and the given
set. -/
def get_unique_docs_spec (dataset : List Record) (unique_docs : List String) :
    List Document × List String :=
  dataset.foldl spec_step ([], unique_docs)

theorem gud_spec_foldl (ds : List Record) (s : List String) (acc : List Document) :
    ds.foldl spec_step (acc, s) =
      (acc ++ (get_unique_docs ds s).1, (get_unique_docs ds s).2) := by
  induction ds generalizing s acc with
  | nil => simp [gud_nil]
  | cons r ds ih =>
    rw [List.foldl_cons]
    cases h : r.context with
    | none =>
      have hs : spec_step (acc, s) r = (acc, s) := by simp [spec_step, h]
      rw [hs, ih, gud_cons_none r ds s h]
    | some c =>
      by_cases hm : r.context_id ∈ s
      · have hs : spec_step (acc, s) r = (acc, s) := by simp [spec_step, h, hm]
        rw [hs, ih, gud_cons_mem r ds s c h hm]
      · have hs : spec_step (acc, s) r =
            (acc ++ [mkDocument r c], r.context_id :: s) := by
          simp [spec_step, h, hm]
        rw [hs, ih, gud_cons_new r ds s c h hm]
        simp

/-- C2: for every list of records and every starting set, the code's
`get_unique_docs` coincides (both in the documents produced, in input
order, and in the final set) with the specification's description:
exactly one `Document` per record whose context is not `None` and whose
`context_id` is not in the set at the moment the record is processed
(first occurrence wins, the id being added right away); all other
records produce no output. -/
theorem get_unique_docs_meets_spec (dataset : List Record) (unique_docs : List String) :
    get_unique_docs dataset unique_docs = get_unique_docs_spec dataset unique_docs := by
  unfold get_unique_docs_spec
  rw [gud_spec_foldl]
  simp

/-- C1: the list returned by `load_documents` — the concatenation of
`get_unique_docs` applied to the three splits with one shared, initially
empty set — contains no two documents with equal `context_id`
metadata. -/
theorem load_documents_ids_nodup (validation train test : List Record) :
    ((load_documents validation train test).map fun d => d.meta.context_id).Nodup := by
  unfold load_documents
  simp only [List.map_append]
  set s1 := (get_unique_docs validation ([] : List String)).2 with hs1
  set s2 := (get_unique_docs train s1).2 with hs2
  have hA := gud_ids_nodup validation ([] : List String)
  have hB := gud_ids_nodup train s1
  have hC := gud_ids_nodup test s2
  have memA : ∀ x, x ∈ ((get_unique_docs validation ([] : List String)).1.map
      fun d => d.meta.context_id) → x ∈ s1 := by
    intro x hx
    rcases List.mem_map.mp hx with ⟨d, hd, hid⟩
    rw [← hid]
    exact gud_fst_id_mem_snd validation _ d hd
  have memB : ∀ x, x ∈ ((get_unique_docs train s1).1.map
      fun d => d.meta.context_id) → x ∈ s2 := by
    intro x hx
    rcases List.mem_map.mp hx with ⟨d, hd, hid⟩
    rw [← hid]
    exact gud_fst_id_mem_snd train _ d hd
  have notB : ∀ x, x ∈ ((get_unique_docs train s1).1.map
      fun d => d.meta.context_id) → x ∉ s1 := by
    intro x hx
    rcases List.mem_map.mp hx with ⟨d, hd, hid⟩
    rw [← hid]
    exact gud_fst_id_not_mem train _ d hd
  have notC : ∀ x, x ∈ ((get_unique_docs test s2).1.map
      fun d => d.meta.context_id) → x ∉ s2 := by
    intro x hx
    rcases List.mem_map.mp hx with ⟨d, hd, hid⟩
    rw [← hid]
    exact gud_fst_id_not_mem test _ d hd
  refine List.Nodup.append (List.Nodup.append hA hB ?_) hC ?_
  · intro x hxA hxB
    exact notB x hxB (memA x hxA)
  · intro x hxAB hxC
    rcases List.mem_append.mp hxAB with hxA | hxB
    · exact notC x hxC (mem_gud_snd_of_mem train s1 x (memA x hxA))
    · exact notC x hxC (memB x hxB)

/-- C5: every document emitted by the deduplication comes from some
input record whose context is the document's content, and its metadata
carries that record's `context_id`, title and url (plus the constant
source tag). -/
theorem gud_document_shape (ds : List Record) (s : List String) (d : Document)
    (hd : d ∈ (get_unique_docs ds s).1) :
    ∃ r ∈ ds, r.context = some d.content
      ∧ d.meta.context_id = r.context_id
      ∧ d.meta.title = r.context_title
      ∧ d.meta.url = r.url
      ∧ d.meta.source = "QASports" := by
  induction ds generalizing s with
  | nil => simp [gud_nil] at hd
  | cons r ds ih =>
    cases h : r.context with
    | none =>
      rw [gud_cons_none r ds s h] at hd
      rcases ih s hd with ⟨r', hr', hprops⟩
      exact ⟨r', List.mem_cons_of_mem _ hr', hprops⟩
    | some c =>
      by_cases hm : r.context_id ∈ s
      · rw [gud_cons_mem r ds s c h hm] at hd
        rcases ih s hd with ⟨r', hr', hprops⟩
        exact ⟨r', List.mem_cons_of_mem _ hr', hprops⟩
      · rw [gud_cons_new r ds s c h hm] at hd
        rcases List.mem_cons.mp hd with heq | hmem
        · subst heq
          exact ⟨r, List.mem_cons_self _ _, h, rfl, rfl, rfl, rfl⟩
        · rcases ih _ hmem with ⟨r', hr', hprops⟩
          exact ⟨r', List.mem_cons_of_mem _ hr', hprops⟩

/-- A concrete record used to witness `gud_document_shape`. -/
def witnessRecord : Record :=
  { context := some "Kobe Bryant scored 81 points in a single game."
    context_id := "ctx-1"
    context_title := "Kobe Bryant"
    url := "https://example.org/kobe" }

/-- Witness for C5 at a concrete one-record dataset. -/
theorem gud_document_shape_witness :
    ∃ r ∈ [witnessRecord],
      r.context = some (mkDocument witnessRecord
        "Kobe Bryant scored 81 points in a single game.").content
      ∧ (mkDocument witnessRecord
          "Kobe Bryant scored 81 points in a single game.").meta.context_id = r.context_id
      ∧ (mkDocument witnessRecord
          "Kobe Bryant scored 81 points in a single game.").meta.title = r.context_title
      ∧ (mkDocument witnessRecord
          "Kobe Bryant scored 81 points in a single game.").meta.url = r.url
      ∧ (mkDocument witnessRecord
          "Kobe Bryant scored 81 points in a single game.").meta.source = "QASports" :=
  gud_document_shape [witnessRecord] []
    (mkDocument witnessRecord "Kobe Bryant scored 81 points in a single game.")
    (by decide)

/-- The in-memory document store: the only state the scripts rely on is
the list of stored documents. -/
structure InMemoryDocumentStore where
  documents : List Document
deriving DecidableEq

/-- Embedding of `document_store.write_documents(documents=documents)`:
the given documents are appended to the store. -/
def write_documents (store : InMemoryDocumentStore) (documents : List Document) :
    InMemoryDocumentStore :=
  { store with documents := store.documents ++ documents }

/-- Embedding of `get_document_store(documents)`: a fresh
`InMemoryDocumentStore` into which the documents are written. -/
def get_document_store (documents : List Document) : InMemoryDocumentStore :=
  write_documents { documents := [] } documents

/-- The BM25 retriever component, holding the document store it was
constructed over. -/
structure InMemoryBM25Retriever where
  document_store : InMemoryDocumentStore
deriving DecidableEq

/-- The extractive reader component, holding its model name. -/
structure ExtractiveReader where
  model : String
deriving DecidableEq

/-- A pipeline component: either a retriever or a reader. -/
inductive Component where
  | retriever (r : InMemoryBM25Retriever)
  | reader (r : ExtractiveReader)
deriving DecidableEq

/-- A haystack pipeline: named components plus sender/receiver socket
connections. -/
structure Pipeline where
  components : List (String × Component)
  connections : List (String × String)
deriving DecidableEq

/-- Embedding of `get_question_pipeline(doc_store)`: a BM25 retriever
over the given store and a roberta reader, added in that order, with
`retriever.documents` connected to `reader.documents`. -/
def get_question_pipeline (doc_store : InMemoryDocumentStore) : Pipeline :=
  let retriever : InMemoryBM25Retriever := { document_store := doc_store }
  let reader : ExtractiveReader := { model := "deepset/roberta-base-squad2" }
  { components := [("retriever", Component.retriever retriever),
                   ("reader", Component.reader reader)]
    connections := [("retriever.documents", "reader.documents")] }

/-- An answer object produced by the reader, with the fields the UI
renders. -/
structure ExtractedAnswer where
  data : String
  score : Nat
  document : Document
deriving DecidableEq

/-- Embedding of the tail of `search`: the pipeline run (a library
call) yields the reader's answer list; the function returns the slice
`answers[0:max_k]` with `max_k = min(top_k, len(answers))` and
`top_k = 3`. -/
def search (answers : List ExtractedAnswer) : List ExtractedAnswer :=
  let top_k := 3
  let max_k := min top_k answers.length
  answers.take max_k

/-- The top-level operations a script performs, in program order.  The
traces below record, for each script, which of these its straight-line
top level contains (branch arms are listed in source order). -/
inductive Step where
  | fetchDataset
  | dedupe
  | buildDocumentStore
  | buildPipeline
  | checkSystemResources
  | buildSummarizer
  | buildQAModel
  | readUserInput
  | runPipeline
  | runSummarizer
  | runQA
  | renderOutput
deriving DecidableEq

/-- Top-level trace of `sports-qna-roberta-base-squad2.py`:
`load_documents` (dataset fetch, then deduplication), then
`get_document_store`, then `get_question_pipeline`, then the text
input, the pipeline run inside `search`, and the rendering loop. -/
def sports_script_trace : List Step :=
  [Step.fetchDataset, Step.dedupe, Step.buildDocumentStore, Step.buildPipeline,
   Step.readUserInput, Step.runPipeline, Step.renderOutput]

/-- Top-level trace of `text-summarization-qna-roberta-base-squad2.py`:
`check_resources`, then the two transformers pipelines, then the text
areas, then (per UI branch) the summarizer or QA call and the output
writes.  No dataset is fetched and no document store is built. -/
def tsqa_script_trace : List Step :=
  [Step.checkSystemResources, Step.buildSummarizer, Step.buildQAModel,
   Step.readUserInput, Step.runSummarizer, Step.runQA, Step.renderOutput]

/-- Top-level trace of `text_summarizer_fb_bart.py`: the text area, then
`summarize_text` (which constructs the summarization pipeline and runs
it), then the rendering loop.  No dataset is fetched and no document
store is built. -/
def bart_script_trace : List Step :=
  [Step.readUserInput, Step.buildSummarizer, Step.runSummarizer,
   Step.renderOutput]

/-- The three scripts of the repository. -/
def script_traces : List (List Step) :=
  [sports_script_trace, tsqa_script_trace, bart_script_trace]

/-- A Streamlit UI effect performed by a handler. -/
inductive UiEffect where
  | showInfo (msg : String)
  | showError (msg : String)
  | write (msg : String)
deriving DecidableEq

/-- The info text rendered for one answer in the sports script (the
numeric score formatting is kept abstract as a decimal rendering of the
stored score). -/
def render_answer (idx : Nat) (ans : ExtractedAnswer) : String :=
  "Answer " ++ toString (idx + 1) ++ ": \x22" ++ ans.data ++ "\x22 | Score: "
    ++ toString ans.score ++ "  Document: \x22" ++ ans.document.meta.title
    ++ "\x22  URL: " ++ ans.document.meta.url

/-- The query block of the sports script: on a successful `search` the
answers are rendered one by one; the blanket `except` clause shows the
fixed message, ignoring the exception value. -/
def sports_query_handler (result : Except String (List ExtractedAnswer)) :
    List UiEffect :=
  match result with
  | Except.ok answers =>
    answers.enum.map fun p => UiEffect.showInfo (render_answer p.1 p.2)
  | Except.error _ =>
    [UiEffect.showError "We do not have an answer for your question"]

/-- The input block of the bart summarizer script: on success the
summary points are written enumerated from 1; the `except` clause
interpolates the exception into the error message. -/
def bart_input_handler (result : Except String (List String)) : List UiEffect :=
  match result with
  | Except.ok summary_points =>
    UiEffect.write "Summary" ::
      (summary_points.enum.map fun p =>
        UiEffect.write (toString (p.1 + 1) ++ ". " ++ p.2))
  | Except.error e =>
    [UiEffect.showError ("An error occurred: " ++ e)]

/-- Python's `str.strip()` as used by the summarizer/QA script's
emptiness checks: leading and trailing whitespace characters are
removed (written over the character list so it reduces in the
kernel). -/
def pyStrip (s : String) : String :=
  ⟨((s.data.dropWhile Char.isWhitespace).reverse.dropWhile Char.isWhitespace).reverse⟩

/-- The Summarize button handler of the summarizer/QA script: a
whitespace-only text shows an error; otherwise `summarize_text` is
called, and any exception it raises propagates (there is no guard). -/
def tsqa_summarize_handler (summarizer : String → Except String String)
    (summ_text : String) : Except String (List UiEffect) :=
  if pyStrip summ_text = "" then
    Except.ok [UiEffect.showError "Please enter some text to summarize."]
  else
    match summarizer summ_text with
    | Except.ok summary => Except.ok [UiEffect.write "Summary:", UiEffect.write summary]
    | Except.error e => Except.error e

/-- The Get Answer button handler of the summarizer/QA script: a
whitespace-only context or question shows an error; otherwise
`question_answer` is called, and any exception it raises propagates
(there is no guard). -/
def tsqa_qa_handler (qa : String → String → Except String String)
    (qa_context qa_question : String) : Except String (List UiEffect) :=
  if pyStrip qa_context = "" || pyStrip qa_question = "" then
    Except.ok [UiEffect.showError "Please enter both context and question."]
  else
    match qa qa_context qa_question with
    | Except.ok answer => Except.ok [UiEffect.write "Answer:", UiEffect.write answer]
    | Except.error e => Except.error e

/-- A startup action of the summarizer/QA script. -/
inductive StartupAction where
  | errorNotEnoughMemory (availableBytes : Nat)
  | buildSummarizer (model : String)
  | buildQAPipeline (model tokenizer : String)
  | runApp
deriving DecidableEq

/-- Embedding of `check_resources()`: below 500 MB of available virtual
memory an error naming the available amount is shown and `False` is
returned; otherwise `True` with no output. -/
def check_resources (availableBytes : Nat) : Bool × List StartupAction :=
  if availableBytes < 500 * 1024 * 1024 then
    (false, [StartupAction.errorNotEnoughMemory availableBytes])
  else
    (true, [])

/-- Top level of the summarizer/QA script: everything after the check —
both transformers pipelines and the whole UI — sits inside
`if check_resources():`. -/
def tsqa_startup (availableBytes : Nat) : List StartupAction :=
  let checked := check_resources availableBytes
  if checked.1 then
    checked.2 ++
      [StartupAction.buildSummarizer "sshleifer/distilbart-cnn-12-6",
       StartupAction.buildQAPipeline "deepset/roberta-base-squad2"
         "deepset/roberta-base-squad2",
       StartupAction.runApp]
  else
    checked.2

/-- C3 counterexample: the claim that every script shows a failure
message not depending on the exception, leaving none to propagate, is
false at concrete inputs: the bart script's error message differs for
two different exceptions, and the summarizer/QA script's Summarize
handler lets an exception raised by the model call propagate. -/
theorem every_guard_generic_counterexample :
    bart_input_handler (Except.error "boom") ≠ bart_input_handler (Except.error "crash")
  ∧ tsqa_summarize_handler (fun _ => Except.error "boom") "hello"
      = Except.error "boom" := by
  constructor
  · decide
  · rfl

/-- C3 amended: only the sports script's guard shows a fixed generic
message independent of the exception; the bart script catches every
exception but interpolates it into the message; neither the Summarize
nor the Get Answer handler of the summarizer/QA script has a guard, so
on non-blank input an exception from either model call propagates. -/
theorem guard_behavior_amended (e e' t ctx q : String) (ht : pyStrip t ≠ "")
    (hc : pyStrip ctx ≠ "") (hq : pyStrip q ≠ "") :
    sports_query_handler (Except.error e)
      = [UiEffect.showError "We do not have an answer for your question"]
  ∧ sports_query_handler (Except.error e) = sports_query_handler (Except.error e')
  ∧ bart_input_handler (Except.error e)
      = [UiEffect.showError ("An error occurred: " ++ e)]
  ∧ tsqa_summarize_handler (fun _ => Except.error e) t = Except.error e
  ∧ tsqa_qa_handler (fun _ _ => Except.error e) ctx q = Except.error e := by
  refine ⟨rfl, rfl, rfl, ?_, ?_⟩
  · simp [tsqa_summarize_handler, ht]
  · simp [tsqa_qa_handler, hc, hq]

/-- Witness for the amended C3 at concrete exception strings and
non-blank inputs for both unguarded handlers. -/
theorem guard_behavior_amended_witness :
    pyStrip "hello" ≠ ""
  ∧ pyStrip "some context" ≠ ""
  ∧ pyStrip "a question" ≠ ""
  ∧ (sports_query_handler (Except.error "boom")
      = [UiEffect.showError "We do not have an answer for your question"]
    ∧ sports_query_handler (Except.error "boom")
        = sports_query_handler (Except.error "crash")
    ∧ bart_input_handler (Except.error "boom")
        = [UiEffect.showError ("An error occurred: " ++ "boom")]
    ∧ tsqa_summarize_handler (fun _ => Except.error "boom") "hello"
        = Except.error "boom"
    ∧ tsqa_qa_handler (fun _ _ => Except.error "boom") "some context" "a question"
        = Except.error "boom") :=
  ⟨by decide, by decide, by decide,
    guard_behavior_amended "boom" "crash" "hello" "some context" "a question"
      (by decide) (by decide) (by decide)⟩

/-- C4 counterexample: not every script loads a dataset and builds a
document index — the bart summarizer script, one of the repository's
scripts, fetches no dataset and builds no document store. -/
theorem every_script_loads_dataset_counterexample :
    bart_script_trace ∈ script_traces
  ∧ Step.fetchDataset ∉ bart_script_trace
  ∧ Step.buildDocumentStore ∉ bart_script_trace := by
  decide

/-- C4 amended: the sports QA script loads the dataset and builds the
in-memory document store before running the pipeline or rendering any
answer; the two summarizer scripts load no dataset and build no
document store, producing their output directly from user text. -/
theorem dataset_loading_amended :
    (Step.fetchDataset ∈ sports_script_trace
      ∧ Step.buildDocumentStore ∈ sports_script_trace
      ∧ sports_script_trace.indexOf Step.fetchDataset
          < sports_script_trace.indexOf Step.runPipeline
      ∧ sports_script_trace.indexOf Step.buildDocumentStore
          < sports_script_trace.indexOf Step.runPipeline
      ∧ sports_script_trace.indexOf Step.buildDocumentStore
          < sports_script_trace.indexOf Step.renderOutput)
  ∧ (Step.fetchDataset ∉ tsqa_script_trace
      ∧ Step.buildDocumentStore ∉ tsqa_script_trace)
  ∧ (Step.fetchDataset ∉ bart_script_trace
      ∧ Step.buildDocumentStore ∉ bart_script_trace) := by
  decide

/-- C6: the QA chain in order — the deduplicated documents are written
unchanged and in full into the fresh store, the pipeline is a BM25
retriever over exactly that store plus the extractive reader with
`retriever.documents` feeding `reader.documents`, and in the script's
top level the store build precedes the pipeline build, which precedes
any pipeline run. -/
theorem qa_chain_order (documents : List Document) :
    (get_document_store documents).documents = documents
  ∧ (get_question_pipeline (get_document_store documents)).components
      = [("retriever", Component.retriever
            { document_store := get_document_store documents }),
         ("reader", Component.reader { model := "deepset/roberta-base-squad2" })]
  ∧ (get_question_pipeline (get_document_store documents)).connections
      = [("retriever.documents", "reader.documents")]
  ∧ sports_script_trace.indexOf Step.dedupe
      < sports_script_trace.indexOf Step.buildDocumentStore
  ∧ sports_script_trace.indexOf Step.buildDocumentStore
      < sports_script_trace.indexOf Step.buildPipeline
  ∧ sports_script_trace.indexOf Step.buildPipeline
      < sports_script_trace.indexOf Step.runPipeline := by
  refine ⟨?_, rfl, rfl, by decide, by decide, by decide⟩
  simp [get_document_store, write_documents]

/-- C7: `search` returns exactly the first `min 3 n` reader answers,
where `n` is the number of answers the reader produced; in particular
it never returns more than 3 and is total (no out-of-range access) when
fewer than 3 answers come back. -/
theorem search_returns_first_min_three (answers : List ExtractedAnswer) :
    search answers = answers.take (min 3 answers.length)
  ∧ (search answers).length = min 3 answers.length
  ∧ (search answers).length ≤ 3 := by
  refine ⟨rfl, ?_, ?_⟩
  · simp [search]
  · simp [search]

/-- C8: with less than `500 * 1024 * 1024` bytes of available memory,
`check_resources` returns `False`, the startup shows only the memory
error, and nothing else runs: neither transformers pipeline is built and
the app body never executes. -/
theorem low_memory_halts (availableBytes : Nat)
    (h : availableBytes < 500 * 1024 * 1024) :
    (check_resources availableBytes).1 = false
  ∧ tsqa_startup availableBytes
      = [StartupAction.errorNotEnoughMemory availableBytes]
  ∧ (∀ m, StartupAction.buildSummarizer m ∉ tsqa_startup availableBytes)
  ∧ (∀ m t, StartupAction.buildQAPipeline m t ∉ tsqa_startup availableBytes)
  ∧ StartupAction.runApp ∉ tsqa_startup availableBytes := by
  have hc : check_resources availableBytes =
      (false, [StartupAction.errorNotEnoughMemory availableBytes]) := by
    simp [check_resources, h]
  have hs : tsqa_startup availableBytes
      = [StartupAction.errorNotEnoughMemory availableBytes] := by
    simp [tsqa_startup, hc]
  refine ⟨by simp [hc], hs, ?_, ?_, ?_⟩ <;> simp [hs]

/-- Witness for C8 at zero available bytes. -/
theorem low_memory_halts_witness :
    0 < 500 * 1024 * 1024
  ∧ ((check_resources 0).1 = false
    ∧ tsqa_startup 0 = [StartupAction.errorNotEnoughMemory 0]
    ∧ (∀ m, StartupAction.buildSummarizer m ∉ tsqa_startup 0)
    ∧ (∀ m t, StartupAction.buildQAPipeline m t ∉ tsqa_startup 0)
    ∧ StartupAction.runApp ∉ tsqa_startup 0) :=
  ⟨by decide, low_memory_halts 0 (by decide)⟩

/-- C9: whitespace-only input never reaches a model — with a blank
summarize text, or a blank context or question, the handler returns only
the error message and its result does not depend on the model function
at all (so neither `summarize_text` nor `question_answer` is called). -/
theorem whitespace_never_reaches_model
    (summ_text qa_context qa_question : String)
    (f : String → Except String String)
    (g : String → String → Except String String)
    (hs : pyStrip summ_text = "")
    (hq : pyStrip qa_context = "" ∨ pyStrip qa_question = "") :
    tsqa_summarize_handler f summ_text
      = Except.ok [UiEffect.showError "Please enter some text to summarize."]
  ∧ (∀ f', tsqa_summarize_handler f' summ_text = tsqa_summarize_handler f summ_text)
  ∧ tsqa_qa_handler g qa_context qa_question
      = Except.ok [UiEffect.showError "Please enter both context and question."]
  ∧ (∀ g', tsqa_qa_handler g' qa_context qa_question
      = tsqa_qa_handler g qa_context qa_question) := by
  refine ⟨?_, ?_, ?_, ?_⟩
  · simp [tsqa_summarize_handler, hs]
  · intro f'
    simp [tsqa_summarize_handler, hs]
  · rcases hq with h | h <;> simp [tsqa_qa_handler, h]
  · intro g'
    rcases hq with h | h <;> simp [tsqa_qa_handler, h]

/-- Witness for C9 at concrete whitespace-only inputs. -/
theorem whitespace_never_reaches_model_witness :
    pyStrip " " = ""
  ∧ (pyStrip "  " = "" ∨ pyStrip "question?" = "")
  ∧ (tsqa_summarize_handler (fun x => Except.ok x) " "
      = Except.ok [UiEffect.showError "Please enter some text to summarize."]
    ∧ (∀ f', tsqa_summarize_handler f' " "
        = tsqa_summarize_handler (fun x => Except.ok x) " ")
    ∧ tsqa_qa_handler (fun _ q => Except.ok q) "  " "question?"
        = Except.ok [UiEffect.showError "Please enter both context and question."]
    ∧ (∀ g', tsqa_qa_handler g' "  " "question?"
        = tsqa_qa_handler (fun _ q => Except.ok q) "  " "question?")) :=
  ⟨by decide, Or.inl (by decide),
    whitespace_never_reaches_model " " "  " "question?"
      (fun x => Except.ok x) (fun _ q => Except.ok q)
      (by decide) (Or.inl (by decide))⟩

end GenAI
